import Mathlib

/-
Verification of the bevy_fundsp DSP-graph registry (src/src/lib.rs).

The embedding models the crate at the granularity the source exposes:

* Rust TypeId over monomorphic types is modelled by representing each
  monomorphic Rust type as a natural number (RustType) and TypeId.of as the
  (injective) coercion to the key type; a factory value (a concrete closure or
  fn item implementing FnDspGraph) carries the RustType of its own type, so
  that both TypeId::of::<F>() at registration time and Any::type_id(&f) at
  lookup time are derivable from it, exactly as in the source.
* bevy::utils::HashMap is modelled as an association list with unique keys:
  insert replaces any earlier binding of the key, remove filters it out,
  lookup scans for it.  Iteration order of the model is the list order;
  nothing proved below depends on it.
* fundsp and kira are external crates, consumed through a narrow interface:
  Wave32::render drives the graph for floor(sample_rate * length) frames, and
  the two fallible boundary operations (Wave32::write_wav16, the fundsp wav
  encoder, and StaticSoundData::from_cursor, the kira decoder) are fields of a
  Backend structure, universally quantified in the theorems.
* Rust panics are modelled by the PanicOr outcome type, so that fatal aborts
  and returned values stay distinguishable.
-/

namespace BevyFundsp

/-- Rust TypeId values, the key type of the registry. -/
abbrev TypeId := Nat

/-- A monomorphic Rust type.  Two distinct function or closure types are two
distinct RustType values; Rust guarantees TypeId::of is injective on them. -/
abbrev RustType := Nat

/-- TypeId::of::<T>() — the identity key derived from a type.  Injectivity of
this map over distinct monomorphic types is the Rust TypeId guarantee. -/
def TypeId.of (t : RustType) : TypeId := t

/-- The name of a Rust type, as produced by std::any::type_name::<T>(). -/
def typeName (t : RustType) : String := "bevy_fundsp::Factory<" ++ toString t ++ ">"

/-- An owned, boxed fundsp AudioUnit32: an opaque processing unit that, in a
sample-rate context, yields one output sample per frame index. -/
def AudioUnit := ℚ → ℕ → ℤ

/-- Settings value of kira StaticSoundSettings, opaque to this crate. -/
abbrev StaticSoundSettings := ℕ

/-- Default value of StaticSoundSettings, used by DspGraph::new. -/
def StaticSoundSettings.default : StaticSoundSettings := 0

/-- Kira FromFileError, the structured decode error, opaque to this crate. -/
abbrev FromFileError := String

/-- Kira StaticSoundData, the decoded sound, opaque to this crate. -/
abbrev StaticSoundData := List ℕ

/-- An outcome that is either a Rust panic with its message or a value. -/
inductive PanicOr (α : Type) where
  | panicked (msg : String)
  | ok (val : α)
deriving Repr

/-- Number of frames fundsp Wave32::render produces for a sample rate and a
length in seconds: duration times sample rate, taken as a whole number. -/
def renderFrames (sampleRate len : ℚ) : ℕ := (⌊sampleRate * len⌋).toNat

/-- Wave32::render: drive the graph for renderFrames frames at the given
sample rate, collecting the produced samples. -/
def renderWave (sampleRate len : ℚ) (g : AudioUnit) : List ℤ :=
  (List.range (renderFrames sampleRate len)).map (g sampleRate)

/-- The fallible external boundary: the fundsp wav16 encoder and the kira
decoder, consumed but not owned by this crate. -/
structure Backend where
  writeWav16 : List ℤ → Except String (List ℕ)
  fromCursor : List ℕ → StaticSoundSettings → Except FromFileError StaticSoundData

/-- DspSource: one constructed graph plus its target length in seconds. -/
structure DspSource where
  graph : AudioUnit
  length : ℚ

/-- DspSource::from_boxed. -/
def DspSource.fromBoxed (graph : AudioUnit) (length : ℚ) : DspSource :=
  ⟨graph, length⟩

/-- DspSource::generate_raw_bytes: render the graph to a wave, write it as
wav16 bytes, and panic if the encoder fails. -/
def DspSource.generateRawBytes (b : Backend) (s : DspSource) (sampleRate : ℚ) :
    PanicOr (List ℕ) :=
  let wave := renderWave sampleRate s.length s.graph
  match b.writeWav16 wave with
  | .error err => .panicked ("Cannot write wave to buffer. Error: " ++ err)
  | .ok buffer => .ok buffer

/-- DspSource::into_kira_sound_data: generate the raw bytes, then hand them to
the kira decoder; the decoder result is returned to the caller. -/
def DspSource.intoKiraSoundData (b : Backend) (s : DspSource) (sampleRate : ℚ)
    (settings : StaticSoundSettings) :
    PanicOr (Except FromFileError StaticSoundData) :=
  match s.generateRawBytes b sampleRate with
  | .panicked msg => .panicked msg
  | .ok rawBytes => .ok (b.fromCursor rawBytes settings)

/-- A value implementing FnDspGraph: a stored zero-argument constructor for
audio graphs.  It carries the RustType of its own concrete type (from which
TypeId::of::<F> and Any::type_id(&f) are both computed) and the capability of
producing a fresh boxed graph on each call. -/
structure FnDspGraph where
  ty : RustType
  generateGraph : Unit → AudioUnit

/-- Any::type_id(&f): the TypeId of the concrete type of the value f. -/
def anyTypeId (f : FnDspGraph) : TypeId := TypeId.of f.ty

/-- DspGraph: one registry entry — stored factory, length, settings. -/
structure DspGraph where
  func : FnDspGraph
  length : ℚ
  settings : StaticSoundSettings

/-- DspGraph::new: entry with default settings. -/
def DspGraph.new (func : FnDspGraph) (length : ℚ) : DspGraph :=
  ⟨func, length, StaticSoundSettings.default⟩

/-- DspGraph::with_settings. -/
def DspGraph.withSettings (func : FnDspGraph) (length : ℚ)
    (settings : StaticSoundSettings) : DspGraph :=
  ⟨func, length, settings⟩

/-- HashMap::insert modelled on association lists: the new binding replaces
any earlier binding of the same key. -/
def hmInsert {α : Type} (k : TypeId) (v : α) (m : List (TypeId × α)) :
    List (TypeId × α) :=
  (k, v) :: m.filter (fun p => p.1 ≠ k)

/-- HashMap::get modelled on association lists. -/
def hmGet {α : Type} (m : List (TypeId × α)) (k : TypeId) : Option α :=
  match m with
  | [] => none
  | (k2, v) :: rest => if k2 = k then some v else hmGet rest k

/-- HashMap::remove modelled on association lists (the key is dropped). -/
def hmRemove {α : Type} (m : List (TypeId × α)) (k : TypeId) :
    List (TypeId × α) :=
  m.filter (fun p => p.1 ≠ k)

/-- DspManager: the registry of graphs plus the private sample rate field. -/
structure DspManager where
  graphs : List (TypeId × DspGraph)
  sampleRate : ℚ

/-- DspManager::default, the only public constructor. -/
def DspManager.default : DspManager := ⟨[], 44100⟩

/-- DspManager::add_graph: insert under TypeId::of::<F>() with default
settings.  The key is derived from the type of the factory argument. -/
def DspManager.addGraph (m : DspManager) (f : FnDspGraph) (length : ℚ) :
    DspManager :=
  { m with graphs := hmInsert (TypeId.of f.ty) (DspGraph.new f length) m.graphs }

/-- DspManager::add_graph_with_settings. -/
def DspManager.addGraphWithSettings (m : DspManager) (f : FnDspGraph)
    (length : ℚ) (settings : StaticSoundSettings) : DspManager :=
  { m with graphs :=
      hmInsert (TypeId.of f.ty) (DspGraph.withSettings f length settings) m.graphs }

/-- DspManager::remove_graph: remove under Any::type_id(&f). -/
def DspManager.removeGraph (m : DspManager) (f : FnDspGraph) : DspManager :=
  { m with graphs := hmRemove m.graphs (anyTypeId f) }

/-- DspManager::get_graph: look up under Any::type_id(&f) and, when present,
build a fresh DspSource from the stored factory and length. -/
def DspManager.getGraph (m : DspManager) (f : FnDspGraph) : Option DspSource :=
  (hmGet m.graphs (anyTypeId f)).map
    (fun g => DspSource.fromBoxed (g.func.generateGraph ()) g.length)

/-- An asset handle issued by the bevy asset store. -/
abbrev Handle := ℕ

/-- The bevy_kira_audio AudioSource wrapper around the decoded sound. -/
structure AudioSource where
  sound : StaticSoundData

/-- The bevy Assets store: issues fresh handles and keeps the inserted
content; this crate only ever appends to it. -/
structure Assets where
  nextId : ℕ
  store : List (ℕ × AudioSource)

/-- Assets::add: insert content, returning a fresh handle. -/
def Assets.add (a : Assets) (src : AudioSource) : Handle × Assets :=
  (a.nextId, ⟨a.nextId + 1, (a.nextId, src) :: a.store⟩)

/-- The body of the add_assets closure for one registry entry: build a fresh
graph via the stored factory, wrap it as a DspSource with the stored length,
and convert it to kira sound data with the stored settings. -/
def renderEntry (b : Backend) (sampleRate : ℚ) (g : DspGraph) :
    PanicOr (Except FromFileError StaticSoundData) :=
  let audioGraph := g.func.generateGraph ()
  let dspSource := DspSource.fromBoxed audioGraph g.length
  dspSource.intoKiraSoundData b sampleRate g.settings

/-- The iteration inside DspManager::add_assets: process the entries in
order, panicking (as unwrap_or_else does) on any conversion error, and
collect the identity-to-handle pairs while threading the asset store. -/
def addAssetsRate (b : Backend) (graphs : List (TypeId × DspGraph))
    (sampleRate : ℚ) (assets : Assets) :
    PanicOr (List (TypeId × Handle) × Assets) :=
  match graphs with
  | [] => .ok ([], assets)
  | (typeId, graph) :: rest =>
    match renderEntry b sampleRate graph with
    | .panicked msg => .panicked msg
    | .ok (.error err) =>
        .panicked ("Cannot convert DSP source to sound data. Error: " ++ err)
    | .ok (.ok sound) =>
      let audioSource : AudioSource := ⟨sound⟩
      let handleAndAssets := assets.add audioSource
      match addAssetsRate b rest sampleRate handleAndAssets.2 with
      | .panicked msg => .panicked msg
      | .ok (handles, assetsOut) =>
          .ok ((typeId, handleAndAssets.1) :: handles, assetsOut)

/-- DspAssets: the identity-to-handle table produced by one bulk render. -/
structure DspAssets where
  handles : List (TypeId × Handle)

/-- DspManager::add_assets at an explicit sample rate (the source reads the
rate from the private field; see DspManager.addAssets). -/
def DspManager.addAssetsAt (m : DspManager) (b : Backend) (sampleRate : ℚ)
    (assets : Assets) : PanicOr (DspAssets × Assets) :=
  match addAssetsRate b m.graphs sampleRate assets with
  | .panicked msg => .panicked msg
  | .ok (handles, assetsOut) => .ok (⟨handles⟩, assetsOut)

/-- DspManager::add_assets: bulk-render every entry at the sample rate stored
in the private field of the manager. -/
def DspManager.addAssets (m : DspManager) (b : Backend) (assets : Assets) :
    PanicOr (DspAssets × Assets) :=
  m.addAssetsAt b m.sampleRate assets

/-- DspAssets::get_graph: non-fatal lookup under Any::type_id(&f). -/
def DspAssets.getGraph (a : DspAssets) (f : FnDspGraph) : Option Handle :=
  hmGet a.handles (anyTypeId f)

/-- DspAssets::graph: lookup under Any::type_id(&f), panicking with a message
naming the missing factory type when the key is absent. -/
def DspAssets.graph (a : DspAssets) (f : FnDspGraph) : PanicOr Handle :=
  match hmGet a.handles (anyTypeId f) with
  | none =>
      .panicked ("DSP asset does not exist with the key \x22" ++ typeName f.ty
        ++ "\x22.")
  | some h => .ok h

/-- The world seen by the generate_assets startup system: the manager
resource (accessed by shared reference), the asset store (mutable), and the
DspAssets resource the system inserts. -/
structure World where
  manager : DspManager
  assets : Assets
  table : Option DspAssets

/-- The generate_assets startup system: bulk-render via the manager (shared
reference) and insert the resulting DspAssets resource. -/
def generateAssets (b : Backend) (w : World) : PanicOr World :=
  match w.manager.addAssets b w.assets with
  | .panicked msg => .panicked msg
  | .ok (table, assetsOut) => .ok ⟨w.manager, assetsOut, some table⟩

/-- The managers reachable through the public interface: DspManager has no
public constructor other than Default, and the only public operations that
return or mutate a manager are add_graph, add_graph_with_settings and
remove_graph (get_graph and add_assets take the receiver immutably). -/
inductive ReachableManager : DspManager → Prop where
  | base : ReachableManager DspManager.default
  | add {m : DspManager} (f : FnDspGraph) (len : ℚ) :
      ReachableManager m → ReachableManager (m.addGraph f len)
  | addWith {m : DspManager} (f : FnDspGraph) (len : ℚ)
      (st : StaticSoundSettings) :
      ReachableManager m → ReachableManager (m.addGraphWithSettings f len st)
  | remove {m : DspManager} (f : FnDspGraph) :
      ReachableManager m → ReachableManager (m.removeGraph f)

/-- Sample factory value used to instantiate theorems on concrete inputs. -/
def factoryA : FnDspGraph := ⟨0, fun _ => fun _ _ => 0⟩

/-- Second sample factory, of a type distinct from factoryA. -/
def factoryB : FnDspGraph := ⟨1, fun _ => fun _ _ => 1⟩

/-- Backend on which both the encoder and the decoder succeed. -/
def backendOk : Backend := ⟨fun _ => .ok [7], fun rawBytes _ => .ok rawBytes⟩

/-- Backend whose wav16 encoder fails. -/
def backendBadWrite : Backend := ⟨fun _ => .error "disk full", fun rawBytes _ => .ok rawBytes⟩

/-- Backend whose kira decoder rejects every byte buffer. -/
def backendBadDecode : Backend := ⟨fun _ => .ok [7], fun _ _ => .error "bad magic"⟩

/-- An empty asset store. -/
def assetsEmpty : Assets := ⟨0, []⟩

/- Helper lemmas about the association-list model of HashMap. -/

theorem hmGet_insert_self {α : Type} (k : TypeId) (v : α)
    (m : List (TypeId × α)) : hmGet (hmInsert k v m) k = some v := by
  simp [hmInsert, hmGet]

theorem hmGet_remove_self {α : Type} (m : List (TypeId × α)) (k : TypeId) :
    hmGet (hmRemove m k) k = none := by
  induction m with
  | nil => rfl
  | cons p rest ih =>
    obtain ⟨k2, v⟩ := p
    by_cases hk : k2 = k
    · simpa [hmRemove, List.filter, hk] using ih
    · simpa [hmRemove, List.filter, hmGet, hk] using ih

theorem hmRemove_of_get_none {α : Type} (m : List (TypeId × α)) (k : TypeId)
    (h : hmGet m k = none) : hmRemove m k = m := by
  induction m with
  | nil => rfl
  | cons p rest ih =>
    obtain ⟨k2, v⟩ := p
    by_cases hk : k2 = k
    · simp [hmGet, hk] at h
    · simp [hmGet, hk] at h
      simp [hmRemove, List.filter, hk] at ih ⊢
      exact ih h

theorem hmGet_isSome_iff {α : Type} (m : List (TypeId × α)) (k : TypeId) :
    (hmGet m k).isSome ↔ k ∈ m.map Prod.fst := by
  induction m with
  | nil => simp [hmGet]
  | cons p rest ih =>
    obtain ⟨k2, v⟩ := p
    by_cases hk : k2 = k
    · simp [hmGet, hk]
    · rw [show hmGet ((k2, v) :: rest) k = hmGet rest k from by simp [hmGet, hk],
        ih, List.map_cons, List.mem_cons]
      exact ⟨Or.inr, fun h => h.elim (fun he => absurd he.symm hk) id⟩

theorem addAssetsRate_keys (b : Backend) (gs : List (TypeId × DspGraph))
    (rate : ℚ) (a : Assets) (hs : List (TypeId × Handle)) (aOut : Assets)
    (h : addAssetsRate b gs rate a = .ok (hs, aOut)) :
    hs.map Prod.fst = gs.map Prod.fst := by
  induction gs generalizing a hs aOut with
  | nil =>
    simp only [addAssetsRate, PanicOr.ok.injEq, Prod.mk.injEq] at h
    simp [← h.1]
  | cons p rest ih =>
    obtain ⟨tid, g⟩ := p
    rw [addAssetsRate] at h
    cases hre : renderEntry b rate g with
    | panicked msg => rw [hre] at h; exact absurd h (by simp)
    | ok r =>
      cases r with
      | error e => rw [hre] at h; exact absurd h (by simp)
      | ok sound =>
        rw [hre] at h
        simp only at h
        cases hrec : addAssetsRate b rest rate (a.add ⟨sound⟩).2 with
        | panicked msg => rw [hrec] at h; exact absurd h (by simp)
        | ok pr =>
          obtain ⟨hs2, a2⟩ := pr
          rw [hrec] at h
          simp only [PanicOr.ok.injEq, Prod.mk.injEq] at h
          rw [← h.1, List.map_cons, List.map_cons, ih _ _ _ hrec]

theorem addAssetsRate_fail (b : Backend) (gs : List (TypeId × DspGraph))
    (rate : ℚ)
    (h : ∃ p ∈ gs, (∃ msg, renderEntry b rate p.2 = .panicked msg) ∨
          (∃ e, renderEntry b rate p.2 = .ok (.error e))) :
    ∀ a : Assets, ∃ msg, addAssetsRate b gs rate a = .panicked msg := by
  induction gs with
  | nil => simp at h
  | cons p rest ih =>
    obtain ⟨tid, g⟩ := p
    intro a
    rcases h with ⟨q, hq, hfail⟩
    rcases List.mem_cons.mp hq with hq1 | hq2
    · subst hq1
      rcases hfail with ⟨msg, hmsg⟩ | ⟨e, he⟩
      · exact ⟨msg, by rw [addAssetsRate, hmsg]⟩
      · exact ⟨"Cannot convert DSP source to sound data. Error: " ++ e,
          by rw [addAssetsRate, he]⟩
    · rw [addAssetsRate]
      cases hre : renderEntry b rate g with
      | panicked msg => exact ⟨msg, rfl⟩
      | ok r =>
        cases r with
        | error e => exact ⟨"Cannot convert DSP source to sound data. Error: " ++ e, rfl⟩
        | ok sound =>
          simp only
          rcases ih ⟨q, hq2, hfail⟩ (a.add ⟨sound⟩).2 with ⟨msg, hmsg⟩
          exact ⟨msg, by rw [hmsg]⟩

theorem countP_hmInsert {α : Type} (k : TypeId) (v : α)
    (m : List (TypeId × α)) :
    (hmInsert k v m).countP (fun p => p.1 = k) = 1 := by
  have hz : (m.filter (fun p => p.1 ≠ k)).countP (fun p => p.1 = k) = 0 := by
    apply List.countP_eq_zero.mpr
    intro p hp
    have := (List.mem_filter.mp hp).2
    simpa using this
  simp [hmInsert, List.countP_cons, hz]

/-- Sample concrete DspSource used to instantiate theorems. -/
def sourceA : DspSource := ⟨fun _ _ => 0, 1⟩

/-- C1: the registry key is derived solely from the factory type: factories
of distinct underlying types get distinct identities, the identity computed
at registration time (TypeId::of::<F> in add_graph) equals the identity
computed at lookup time (Any::type_id on a value of that same type, as in
get_graph and remove_graph), and add_graph followed by get_graph on a value
of the registered type finds the entry. -/
theorem identity_key_from_type (m : DspManager) (f f2 g : FnDspGraph)
    (len : ℚ) (hty : g.ty = f.ty) :
    (f.ty ≠ f2.ty → anyTypeId f ≠ anyTypeId f2) ∧
    TypeId.of f.ty = anyTypeId g ∧
    ((m.addGraph f len).getGraph g).isSome := by
  refine ⟨fun hne => hne, ?_, ?_⟩
  · simp [anyTypeId, TypeId.of, hty]
  · simp [DspManager.addGraph, DspManager.getGraph, anyTypeId, TypeId.of, hty,
      hmGet_insert_self]

/-- Witness for C1: identity facts at two concrete factories. -/
theorem identity_key_from_type_witness :
    (factoryA.ty ≠ factoryB.ty → anyTypeId factoryA ≠ anyTypeId factoryB) ∧
    TypeId.of factoryA.ty = anyTypeId factoryA ∧
    ((DspManager.default.addGraph factoryA 2).getGraph factoryA).isSome :=
  identity_key_from_type DspManager.default factoryA factoryB factoryA 2 rfl

/-- C3: registration is last-write-wins: registering the same factory type
twice leaves exactly one entry, which is entirely the second registration
(second length, default settings of the plain add_graph), and get_graph
yields a source carrying the second length only. -/
theorem add_graph_last_write_wins (m : DspManager) (f : FnDspGraph)
    (len1 len2 : ℚ) (st1 : StaticSoundSettings) (_hlen : len1 ≠ len2) :
    hmGet ((m.addGraphWithSettings f len1 st1).addGraph f len2).graphs
        (anyTypeId f) = some (DspGraph.new f len2) ∧
    (((m.addGraphWithSettings f len1 st1).addGraph f len2).getGraph f).map
        DspSource.length = some len2 ∧
    ((m.addGraphWithSettings f len1 st1).addGraph f len2).graphs.countP
        (fun p => p.1 = anyTypeId f) = 1 := by
  refine ⟨?_, ?_, ?_⟩
  · simpa [DspManager.addGraph, DspManager.addGraphWithSettings, anyTypeId] using
      hmGet_insert_self (TypeId.of f.ty) (DspGraph.new f len2) _
  · simp [DspManager.addGraph, DspManager.addGraphWithSettings,
      DspManager.getGraph, anyTypeId, hmGet_insert_self, DspSource.fromBoxed,
      DspGraph.new]
  · simpa [DspManager.addGraph, DspManager.addGraphWithSettings, anyTypeId] using
      countP_hmInsert (TypeId.of f.ty) (DspGraph.new f len2) _

/-- Witness for C3 at concrete lengths 1 and 2. -/
theorem add_graph_last_write_wins_witness :
    hmGet ((DspManager.default.addGraphWithSettings factoryA 1 3).addGraph
        factoryA 2).graphs (anyTypeId factoryA) = some (DspGraph.new factoryA 2) ∧
    (((DspManager.default.addGraphWithSettings factoryA 1 3).addGraph
        factoryA 2).getGraph factoryA).map DspSource.length = some 2 ∧
    ((DspManager.default.addGraphWithSettings factoryA 1 3).addGraph
        factoryA 2).graphs.countP (fun p => p.1 = anyTypeId factoryA) = 1 :=
  add_graph_last_write_wins DspManager.default factoryA 1 2 3 (by norm_num)

/-- C5: remove_graph followed by get_graph is absent whatever the prior
state, and remove_graph on an identity that is not present leaves the
manager unchanged. -/
theorem remove_then_get_absent (m : DspManager) (f : FnDspGraph) :
    (m.removeGraph f).getGraph f = none ∧
    (hmGet m.graphs (anyTypeId f) = none → m.removeGraph f = m) := by
  constructor
  · simp [DspManager.removeGraph, DspManager.getGraph, hmGet_remove_self]
  · intro h
    obtain ⟨gs, sr⟩ := m
    simp only [DspManager.removeGraph]
    simp [hmRemove_of_get_none _ _ h]

/-- Witness for C5 on the empty manager. -/
theorem remove_then_get_absent_witness :
    ((DspManager.default.removeGraph factoryA).getGraph factoryA = none) ∧
    (hmGet DspManager.default.graphs (anyTypeId factoryA) = none →
      DspManager.default.removeGraph factoryA = DspManager.default) :=
  remove_then_get_absent DspManager.default factoryA

/-- C6: DspAssets.getGraph reports absence as none, while DspAssets.graph
panics exactly on absence, with a message naming the missing factory type;
when the identity is present, graph returns the stored handle. -/
theorem asset_lookup_absence_modes (a : DspAssets) (f : FnDspGraph)
    (hdl : Handle) :
    (hmGet a.handles (anyTypeId f) = none →
      a.getGraph f = none ∧
      a.graph f = .panicked ("DSP asset does not exist with the key \x22" ++
        typeName f.ty ++ "\x22.")) ∧
    (hmGet a.handles (anyTypeId f) = some hdl →
      a.getGraph f = some hdl ∧ a.graph f = .ok hdl) := by
  constructor
  · intro h
    exact ⟨by simp [DspAssets.getGraph, h], by simp [DspAssets.graph, h]⟩
  · intro h
    exact ⟨by simp [DspAssets.getGraph, h], by simp [DspAssets.graph, h]⟩

/-- Witness for C6 on a one-handle table. -/
theorem asset_lookup_absence_modes_witness :
    (hmGet (DspAssets.mk [(0, 5)]).handles (anyTypeId factoryA) = none →
      (DspAssets.mk [(0, 5)]).getGraph factoryA = none ∧
      (DspAssets.mk [(0, 5)]).graph factoryA =
        .panicked ("DSP asset does not exist with the key \x22" ++
          typeName factoryA.ty ++ "\x22.")) ∧
    (hmGet (DspAssets.mk [(0, 5)]).handles (anyTypeId factoryA) = some 5 →
      (DspAssets.mk [(0, 5)]).getGraph factoryA = some 5 ∧
      (DspAssets.mk [(0, 5)]).graph factoryA = .ok 5) :=
  asset_lookup_absence_modes (DspAssets.mk [(0, 5)]) factoryA 5

/-- C7: into_kira_sound_data is the one recoverable path: when the encoder
succeeds and the kira decoder rejects the bytes, the decode error is
returned to the caller (no panic); when the wav16 encoding itself fails,
generate_raw_bytes (and hence into_kira_sound_data) panics with the
diagnostic message. -/
theorem render_error_paths (b : Backend) (s : DspSource) (rate : ℚ)
    (st : StaticSoundSettings) (rawBytes : List ℕ) (err : String)
    (e : FromFileError) :
    (b.writeWav16 (renderWave rate s.length s.graph) = .ok rawBytes →
      s.generateRawBytes b rate = .ok rawBytes ∧
      s.intoKiraSoundData b rate st = .ok (b.fromCursor rawBytes st) ∧
      (b.fromCursor rawBytes st = .error e →
        s.intoKiraSoundData b rate st = .ok (.error e))) ∧
    (b.writeWav16 (renderWave rate s.length s.graph) = .error err →
      s.generateRawBytes b rate =
        .panicked ("Cannot write wave to buffer. Error: " ++ err) ∧
      s.intoKiraSoundData b rate st =
        .panicked ("Cannot write wave to buffer. Error: " ++ err)) := by
  constructor
  · intro h
    have h1 : s.generateRawBytes b rate = .ok rawBytes := by
      simp [DspSource.generateRawBytes, h]
    refine ⟨h1, ?_, ?_⟩
    · simp [DspSource.intoKiraSoundData, h1]
    · intro hd
      simp [DspSource.intoKiraSoundData, h1, hd]
  · intro h
    have h1 : s.generateRawBytes b rate =
        .panicked ("Cannot write wave to buffer. Error: " ++ err) := by
      simp [DspSource.generateRawBytes, h]
    exact ⟨h1, by simp [DspSource.intoKiraSoundData, h1]⟩

/-- Witness for C7 on a backend whose encoder fails. -/
theorem render_error_paths_witness :
    (backendBadWrite.writeWav16 (renderWave 44100 sourceA.length sourceA.graph)
        = .ok [7] →
      sourceA.generateRawBytes backendBadWrite 44100 = .ok [7] ∧
      sourceA.intoKiraSoundData backendBadWrite 44100 0 =
        .ok (backendBadWrite.fromCursor [7] 0) ∧
      (backendBadWrite.fromCursor [7] 0 = .error "bad magic" →
        sourceA.intoKiraSoundData backendBadWrite 44100 0 =
          .ok (.error "bad magic"))) ∧
    (backendBadWrite.writeWav16 (renderWave 44100 sourceA.length sourceA.graph)
        = .error "disk full" →
      sourceA.generateRawBytes backendBadWrite 44100 =
        .panicked ("Cannot write wave to buffer. Error: " ++ "disk full") ∧
      sourceA.intoKiraSoundData backendBadWrite 44100 0 =
        .panicked ("Cannot write wave to buffer. Error: " ++ "disk full")) :=
  render_error_paths backendBadWrite sourceA 44100 0 [7] "disk full" "bad magic"

/-- C8: rendering is deterministic in its inputs: two sources with the same
graph state and the same length produce the same bytes at every sample rate
(the rendering step itself introduces no randomness). -/
theorem generate_raw_bytes_deterministic (b : Backend) (s1 s2 : DspSource)
    (rate : ℚ) (hg : s1.graph = s2.graph) (hl : s1.length = s2.length) :
    s1.generateRawBytes b rate = s2.generateRawBytes b rate := by
  obtain ⟨g1, l1⟩ := s1
  obtain ⟨g2, l2⟩ := s2
  have hg2 : g1 = g2 := hg
  have hl2 : l1 = l2 := hl
  subst hg2
  subst hl2
  rfl

/-- Witness for C8 on a concrete source. -/
theorem generate_raw_bytes_deterministic_witness :
    sourceA.generateRawBytes backendOk 44100 =
      sourceA.generateRawBytes backendOk 44100 :=
  generate_raw_bytes_deterministic backendOk sourceA sourceA 44100 rfl rfl

/-- C2: when add_assets returns a table, its handle keys are exactly the
registered identities: lookup in the table succeeds precisely for the
identities registered at render time and is absent for every other. -/
theorem add_assets_exact_domain (b : Backend) (m : DspManager)
    (assets : Assets) (t : DspAssets) (aOut : Assets) (f : FnDspGraph)
    (h : m.addAssets b assets = .ok (t, aOut)) :
    t.handles.map Prod.fst = m.graphs.map Prod.fst ∧
    ((t.getGraph f).isSome ↔ (hmGet m.graphs (anyTypeId f)).isSome) := by
  rw [DspManager.addAssets, DspManager.addAssetsAt] at h
  cases hr : addAssetsRate b m.graphs m.sampleRate assets with
  | panicked msg => rw [hr] at h; exact absurd h (by simp)
  | ok pr =>
    obtain ⟨hs, a2⟩ := pr
    rw [hr] at h
    simp only [PanicOr.ok.injEq, Prod.mk.injEq] at h
    obtain ⟨ht, _⟩ := h
    have hkeys : hs.map Prod.fst = m.graphs.map Prod.fst :=
      addAssetsRate_keys b m.graphs m.sampleRate assets hs a2 hr
    subst ht
    refine ⟨hkeys, ?_⟩
    rw [DspAssets.getGraph]
    rw [hmGet_isSome_iff, hmGet_isSome_iff]
    show anyTypeId f ∈ hs.map Prod.fst ↔ _
    rw [hkeys]

/-- Witness for C2 on a one-entry manager and a fully succeeding backend. -/
theorem add_assets_exact_domain_witness :
    (DspAssets.mk [(0, 0)]).handles.map Prod.fst =
      (DspManager.default.addGraph factoryA 2).graphs.map Prod.fst ∧
    (((DspAssets.mk [(0, 0)]).getGraph factoryA).isSome ↔
      (hmGet (DspManager.default.addGraph factoryA 2).graphs
        (anyTypeId factoryA)).isSome) :=
  add_assets_exact_domain backendOk (DspManager.default.addGraph factoryA 2)
    assetsEmpty (DspAssets.mk [(0, 0)])
    (Assets.mk 1 [(0, AudioSource.mk [7])]) factoryA rfl

/-- C4: the bulk render is all-or-nothing: if converting the freshly built
graph of any single registered entry fails (either by a panic inside the
conversion or by a decode error, which add_assets unwraps into a panic),
the whole add_assets call panics and no partial table is returned. -/
theorem add_assets_all_or_nothing (b : Backend) (m : DspManager)
    (assets : Assets) (t : DspAssets) (aOut : Assets)
    (h : ∃ p ∈ m.graphs,
      (∃ msg, renderEntry b m.sampleRate p.2 = .panicked msg) ∨
      (∃ e, renderEntry b m.sampleRate p.2 = .ok (.error e))) :
    (∃ msg, m.addAssets b assets = .panicked msg) ∧
    m.addAssets b assets ≠ .ok (t, aOut) := by
  rcases addAssetsRate_fail b m.graphs m.sampleRate h assets with ⟨msg, hmsg⟩
  have hm : m.addAssets b assets = .panicked msg := by
    rw [DspManager.addAssets, DspManager.addAssetsAt, hmsg]
  refine ⟨⟨msg, hm⟩, fun hok => ?_⟩
  rw [hm] at hok
  exact PanicOr.noConfusion hok

/-- Witness for C4 on a one-entry manager whose decoder always rejects. -/
theorem add_assets_all_or_nothing_witness :
    (∃ msg, (DspManager.default.addGraph factoryA 2).addAssets backendBadDecode
      assetsEmpty = .panicked msg) ∧
    (DspManager.default.addGraph factoryA 2).addAssets backendBadDecode
      assetsEmpty ≠ .ok (DspAssets.mk [], assetsEmpty) :=
  add_assets_all_or_nothing backendBadDecode
    (DspManager.default.addGraph factoryA 2) assetsEmpty (DspAssets.mk [])
    assetsEmpty
    ⟨(0, DspGraph.new factoryA 2),
      List.mem_singleton.mpr rfl,
      Or.inr ⟨"bad magic", rfl⟩⟩

/-- C9: the bulk render rate is not caller-specified: every manager
reachable through the public interface carries sampleRate 44100, and
add_assets renders at that stored rate. -/
theorem bulk_render_rate_is_44100 (m : DspManager) (b : Backend)
    (assets : Assets) (h : ReachableManager m) :
    m.sampleRate = 44100 ∧
    m.addAssets b assets = m.addAssetsAt b 44100 assets := by
  have hs : m.sampleRate = 44100 := by
    induction h with
    | base => rfl
    | @add m2 f len hm ih => simpa [DspManager.addGraph] using ih
    | @addWith m2 f len st hm ih =>
        simpa [DspManager.addGraphWithSettings] using ih
    | @remove m2 f hm ih => simpa [DspManager.removeGraph] using ih
  exact ⟨hs, by rw [DspManager.addAssets, hs]⟩

/-- Witness for C9 on a manager built by Default followed by one add. -/
theorem bulk_render_rate_is_44100_witness :
    (DspManager.default.addGraph factoryA 2).sampleRate = 44100 ∧
    (DspManager.default.addGraph factoryA 2).addAssets backendOk assetsEmpty =
      (DspManager.default.addGraph factoryA 2).addAssetsAt backendOk 44100
        assetsEmpty :=
  bulk_render_rate_is_44100 (DspManager.default.addGraph factoryA 2) backendOk
    assetsEmpty (ReachableManager.add factoryA 2 ReachableManager.base)

/-- C10: the bulk render leaves the registry unchanged: the manager after a
successful generate_assets pass is the manager before it, entry for entry,
and get_graph answers identically before and after. -/
theorem bulk_render_preserves_registry (b : Backend) (w wOut : World)
    (f : FnDspGraph) (h : generateAssets b w = .ok wOut) :
    wOut.manager = w.manager ∧
    wOut.manager.graphs = w.manager.graphs ∧
    wOut.manager.getGraph f = w.manager.getGraph f := by
  rw [generateAssets] at h
  cases hr : w.manager.addAssets b w.assets with
  | panicked msg => rw [hr] at h; exact absurd h (by simp)
  | ok pr =>
    obtain ⟨t, a2⟩ := pr
    rw [hr] at h
    simp only [PanicOr.ok.injEq] at h
    rw [← h]
    exact ⟨rfl, rfl, rfl⟩

/-- Witness for C10 on the empty manager. -/
theorem bulk_render_preserves_registry_witness :
    (World.mk DspManager.default assetsEmpty (some (DspAssets.mk []))).manager =
      (World.mk DspManager.default assetsEmpty none).manager ∧
    (World.mk DspManager.default assetsEmpty
        (some (DspAssets.mk []))).manager.graphs =
      (World.mk DspManager.default assetsEmpty none).manager.graphs ∧
    (World.mk DspManager.default assetsEmpty
        (some (DspAssets.mk []))).manager.getGraph factoryA =
      (World.mk DspManager.default assetsEmpty none).manager.getGraph factoryA :=
  bulk_render_preserves_registry backendOk
    (World.mk DspManager.default assetsEmpty none)
    (World.mk DspManager.default assetsEmpty (some (DspAssets.mk [])))
    factoryA rfl

end BevyFundsp
